import Mathlib

/-!
Verification of the MediTrack administrative scripts.

Shallow embedding of the two scripts:
* `scripts/setup_auth.py` — the admin-provisioning workflow (migration,
  create-or-reconcile admin, verify), modelled as explicit state passing
  over a `Backend` record holding the identity store (`users`) and the
  `user_profiles` table (`profiles`).
* `scripts/test_supabase_access.py` — the access-verification tool,
  modelled as a pure function from the four HTTP responses to the ordered
  list of reported events.

Remote calls are external: the outcome of the identity-creation call is an
explicit `CreateResult` argument, and the deterministic backend semantics
used for whole-run theorems is `supaCreate`.
-/

namespace MediTrack

/-- An entry of the backend's identity store (`supabase.auth` user).
Identifiers are modelled as `Nat` in place of UUIDs. -/
structure AuthUser where
  id : Nat
  email : String
deriving DecidableEq, Repr

/-- A row of the `user_profiles` table. `approved_at` timestamps are
modelled as `Option Nat` (`none` = never approved). -/
structure Profile where
  id : Nat
  email : String
  first_name : String
  last_name : String
  role : String
  is_approved : Bool
  approved_by : Option Nat
  approved_at : Option Nat
deriving DecidableEq, Repr

/-- The remote backend state visible to the provisioning script: the
identity store, the `user_profiles` table, and a fresh-identifier source. -/
structure Backend where
  users : List AuthUser
  profiles : List Profile
  nextId : Nat
deriving DecidableEq, Repr

/-- Hard-coded admin account details of `setup_auth.py`. -/
def ADMIN_EMAIL : String := "2646502936yjh@gmail.com"

def ADMIN_PASSWORD : String := "Meditrack370"

def ADMIN_FIRST_NAME : String := "Super"

def ADMIN_LAST_NAME : String := "Admin"

/-- Character-list substring search: does `needle` occur contiguously in
the second list? -/
def strContainsAux (needle : List Char) : List Char → Bool
  | [] => needle.isEmpty
  | c :: cs => needle.isPrefixOf (c :: cs) || strContainsAux needle cs

/-- Python's `needle in hay` substring test. -/
def containsSubstr (hay needle : String) : Bool :=
  strContainsAux needle.toList hay.toList

/-- Python's `str.lower()`, modelled per character (the error messages the
script classifies are ASCII, where the two agree). -/
def toLowerStr (s : String) : String :=
  ⟨s.toList.map Char.toLower⟩

/-- The duplicate-error classifier of `create_admin_user`'s `except` branch:
`'already_exists' in error_msg or 'duplicate' in error_msg.lower()`. -/
def isDuplicateError (error_msg : String) : Bool :=
  containsSubstr error_msg "already_exists" || containsSubstr (toLowerStr error_msg) "duplicate"

/-- The profile update payload applied by `create_admin_user`:
`{'role': 'admin', 'is_approved': True, 'approved_by': approver, 'approved_at': 'now()'}`. -/
def adminProfileUpdate (approver : Nat) (now : Nat) (p : Profile) : Profile :=
  { p with role := "admin", is_approved := true,
           approved_by := some approver, approved_at := some now }

/-- `supabase.table('user_profiles').update({...}).eq('id', uid).execute()`:
every profile row whose id equals `uid` receives the admin update. -/
def updateProfilesById (b : Backend) (uid : Nat) (now : Nat) : Backend :=
  { b with profiles :=
      b.profiles.map (fun p => if p.id == uid then adminProfileUpdate uid now p else p) }

/-- Outcome of the remote `supabase.auth.admin.create_user` call:
success with the new user and post-call backend state, a response with no
user, or a raised exception carrying its message. -/
inductive CreateResult where
  | created (u : AuthUser) (b : Backend)
  | noUser
  | raised (msg : String)
deriving DecidableEq, Repr

/-- Embedding of `create_admin_user` from `setup_auth.py`. The creation
call's outcome `res` is an argument; `b` is the backend state the function
observes in its `except` branch (`list_users`). Returns the reported
success flag and the resulting backend state. -/
def create_admin_user (res : CreateResult) (b : Backend) (now : Nat) : Bool × Backend :=
  match res with
  | .created u b' => (true, updateProfilesById b' u.id now)
  | .noUser => (false, b)
  | .raised msg =>
    if isDuplicateError msg then
      match b.users.find? (fun u => u.email == ADMIN_EMAIL) with
      | some admin_user => (true, updateProfilesById b admin_user.id now)
      | none => (false, b)
    else (false, b)

/-- Modelled from the spec: the SQL migration file `auth_migration.sql` is
not present in the repository sources, so the schema side effects of
account creation are modelled from the spec's data model (§3, §4.1): after
a successful identity creation a `user_profiles` row for the new identity
exists, keyed by the same identifier and carrying the account's email and
names, so that the script's id-keyed update and email-keyed verification
find it. The pre-update `role`/approval values are placeholders. -/
def triggerProfile (uid : Nat) (email first last : String) : Profile :=
  { id := uid, email := email, first_name := first, last_name := last,
    role := "user", is_approved := false, approved_by := none, approved_at := none }

/-- Deterministic semantics of the backend's identity-creation call: if a
user with the admin email already exists the call raises (with message
`dupMsg`, a parameter standing for the vendor's duplicate-error text),
otherwise it creates the user under a fresh identifier together with its
trigger profile. -/
def supaCreate (dupMsg : String) (b : Backend) : CreateResult :=
  if b.users.any (fun u => u.email == ADMIN_EMAIL) then .raised dupMsg
  else
    .created { id := b.nextId, email := ADMIN_EMAIL }
      { users := b.users ++ [{ id := b.nextId, email := ADMIN_EMAIL }],
        profiles := b.profiles ++
          [triggerProfile b.nextId ADMIN_EMAIL ADMIN_FIRST_NAME ADMIN_LAST_NAME],
        nextId := b.nextId + 1 }

/-- Embedding of `verify_setup`: re-read `user_profiles` filtered by the
admin email; the function returns `True` exactly when `admin_result.data`
is non-empty (the row's role/approval values are printed but not compared).
The two table-count reads never fail in the model, so the `except` branch
is unreachable. -/
def verify_setup (b : Backend) : Bool :=
  !(b.profiles.filter (fun p => p.email == ADMIN_EMAIL)).isEmpty

/-- Outcome of the migration step's environment: the local SQL file is
missing, the remote `exec_sql` RPC raises, or everything succeeds. -/
inductive MigrationOutcome where
  | fileMissing
  | execError (msg : String)
  | ok
deriving DecidableEq, Repr

/-- Embedding of `run_migration_sql`: returns `False` when the migration
file is missing or the RPC raises, `True` on success. The migration acts
on the schema, not on the modelled identity/profile rows, so it has no
effect on `Backend`. -/
def run_migration_sql (mo : MigrationOutcome) : Bool :=
  match mo with
  | .fileMissing => false
  | .execError _ => false
  | .ok => true

/-- The body of `main` after the client is obtained: run the migration
(result discarded), create-or-reconcile the admin (exit 1 on failure),
verify (exit 1 on failure, else exit 0). Returns the exit code and the
final backend state. -/
def main_run (mo : MigrationOutcome) (res : CreateResult) (b : Backend) (now : Nat) :
    Nat × Backend :=
  let _migration_ok := run_migration_sql mo
  let (ok, b1) := create_admin_user res b now
  if !ok then (1, b1)
  else if verify_setup b1 then (0, b1) else (1, b1)

/-- One run of the provisioning workflow against the deterministic backend
semantics `supaCreate`. -/
def runProvisioning (mo : MigrationOutcome) (dupMsg : String) (now : Nat) (b : Backend) :
    Nat × Backend :=
  main_run mo (supaCreate dupMsg b) b now

/-- Backend state after `n` successive runs of the provisioning workflow;
run `i` uses `ts i` as its timestamp. -/
def runProvisioningN (mo : MigrationOutcome) (dupMsg : String) (ts : Nat → Nat) :
    Nat → Backend → Backend
  | 0, b => b
  | n + 1, b => (runProvisioning mo dupMsg (ts n) (runProvisioningN mo dupMsg ts n b)).2

/-- Python truthiness of an environment variable: unset (`None`) and the
empty string are falsy. -/
def truthy : Option String → Bool
  | none => false
  | some s => !(s == "")

/-- Python's `a or b` on optional strings. -/
def pyOr (a b : Option String) : Option String :=
  if truthy a then a else b

/-- Environment configuration read by `setup_auth.py`. -/
structure Config where
  url : Option String
  serviceKey : Option String
  anonKey : Option String
deriving DecidableEq, Repr

/-- Result of `create_supabase_client`: either the process exits or a
client for the given url/key is returned. -/
inductive ClientResult where
  | exited (code : Nat)
  | client (url key : String)
deriving DecidableEq, Repr

/-- Embedding of `create_supabase_client`: exit 1 when the URL is missing,
else pick the service-role key with the anon key as fallback, exiting 1
when neither is set. -/
def create_supabase_client (cfg : Config) : ClientResult :=
  if !truthy cfg.url then .exited 1
  else
    let auth_key := pyOr cfg.serviceKey cfg.anonKey
    if !truthy auth_key then .exited 1
    else .client (cfg.url.getD "") (auth_key.getD "")

/-- The whole provisioning tool, configuration included: when client
creation exits, no remote call is issued and the backend state is returned
untouched; otherwise the workflow body runs. -/
def main_full (cfg : Config) (mo : MigrationOutcome) (dupMsg : String) (now : Nat)
    (b : Backend) : Nat × Backend :=
  match create_supabase_client cfg with
  | .exited c => (c, b)
  | .client _ _ => runProvisioning mo dupMsg now b

/-- The accounts of the identity store carrying the admin email. -/
def adminAccounts (b : Backend) : List AuthUser :=
  b.users.filter (fun u => u.email == ADMIN_EMAIL)

/-- Erase the per-run `approved_at` timestamps, for comparing states up to
update timestamps. -/
def stripTimes (b : Backend) : Backend :=
  { b with profiles := b.profiles.map (fun p => { p with approved_at := none }) }

/-- Backend well-formedness (the invariants the spec attributes to the
backend and the modelled trigger, §3): distinct identifiers and emails in
the identity store, distinct profile ids, a matching profile per user and a
matching user per profile, and all identifiers below the fresh counter. -/
def WF (b : Backend) : Prop :=
  (b.users.map (fun u => u.id)).Nodup ∧
  (b.users.map (fun u => u.email)).Nodup ∧
  (b.profiles.map (fun p => p.id)).Nodup ∧
  (∀ u ∈ b.users, ∃ p ∈ b.profiles, p.id = u.id ∧ p.email = u.email) ∧
  (∀ p ∈ b.profiles, ∃ u ∈ b.users, u.id = p.id ∧ u.email = p.email) ∧
  (∀ u ∈ b.users, u.id < b.nextId) ∧
  (∀ p ∈ b.profiles, p.id < b.nextId)

instance (b : Backend) : Decidable (WF b) := by
  unfold WF; infer_instance

/-- All profile rows keyed by `uid` carry the admin field values. -/
def AllAdminFields (b : Backend) (uid : Nat) : Prop :=
  ∀ p ∈ b.profiles, p.id = uid →
    p.role = "admin" ∧ p.is_approved = true ∧ p.approved_by = some uid

/-- The fully privileged profile row for identifier `uid`, approved at
time `t`: the trigger profile after the admin update. -/
def adminProfileFor (uid t : Nat) : Profile :=
  { id := uid, email := ADMIN_EMAIL, first_name := ADMIN_FIRST_NAME,
    last_name := ADMIN_LAST_NAME, role := "admin", is_approved := true,
    approved_by := some uid, approved_at := some t }

/-- The invariant reached after one successful provisioning run: the state
is well-formed, `a` is the (first-found) identity with the admin email,
and every profile row keyed by `a.id` carries the admin field values. -/
def Established (b : Backend) (a : AuthUser) : Prop :=
  WF b ∧ a.email = ADMIN_EMAIL ∧
  b.users.find? (fun u => u.email == ADMIN_EMAIL) = some a ∧
  AllAdminFields b a.id

/-! Embedding of `scripts/test_supabase_access.py`. Identifiers of the
REST rows are modelled as `String` (UUIDs). Each `GetResp` bundles the
HTTP status, the parsed JSON array (meaningful only on status 200) and the
raw body text used when reporting errors. -/

/-- A `medications` row as selected by TEST 1 (`id,name,strength`). -/
structure Medication where
  id : String
  name : String
  strength : Option String
deriving DecidableEq, Repr

/-- An `inventory` row as selected by TEST 2. -/
structure InventoryItem where
  medication_id : String
  qty_units : Nat
  lot_number : String
deriving DecidableEq, Repr

/-- A `dispensing_logs` row as selected by TEST 3. -/
structure LogRow where
  id : String
  patient_id : String
  medication_name : String
deriving DecidableEq, Repr

/-- Response to a GET request: status, parsed array, raw body text. -/
structure GetResp (α : Type) where
  status : Nat
  data : List α
  text : String
deriving DecidableEq, Repr

/-- A row returned by the POST with `Prefer: return=representation`. -/
structure InsertedRow where
  id : String
deriving DecidableEq, Repr

/-- Response to the POST request of TEST 4. -/
structure InsertResp where
  status : Nat
  data : List InsertedRow
  text : String
deriving DecidableEq, Repr

/-- The four HTTP responses the backend would give to the four requests of
the access-verification tool. -/
structure TestEnv where
  meds : GetResp Medication
  inv : GetResp InventoryItem
  logs : GetResp LogRow
  insert : InsertResp
deriving DecidableEq, Repr

/-- The `test_record` payload of TEST 4, as a function of today's date and
the referenced medication identifier. -/
structure TestRecord where
  log_date : String
  patient_id : String
  medication_id : String
  medication_name : String
  dose_instructions : String
  lot_number : String
  expiration_date : String
  amount_dispensed : String
  physician_name : String
  student_name : String
  notes : String
deriving DecidableEq, Repr

/-- The literal payload built by TEST 4 of `test_supabase_access.py`. -/
def dispensingPayload (log_date : String) (mid : String) : TestRecord :=
  { log_date := log_date, patient_id := "TEST-999", medication_id := mid,
    medication_name := "Test Medication", dose_instructions := "Test dose",
    lot_number := "TEST-LOT", expiration_date := "2026-12-31",
    amount_dispensed := "1 tab", physician_name := "Test Physician",
    student_name := "Test Student",
    notes := "Python test script - safe to delete" }

/-- What the tool reports to the operator, in order. -/
inductive Event where
  | readOk (table : String) (count : Nat)
  | readFail (table : String) (errText : String)
  | insertIssued (payload : TestRecord)
  | insertOk (recId : Option String)
  | insertFail (errText : String)
  | skippedWrite
deriving DecidableEq, Repr

/-- The shared report pattern of the three read checks: on status 200
report the fetched count, otherwise report the raw error body. -/
def readEvent (table : String) (status : Nat) (count : Nat) (errText : String) : Event :=
  if status == 200 then .readOk table count else .readFail table errText

/-- The `first_med_id` variable of the script: set from the first fetched
medication when TEST 1 returns 200 with a non-empty array, `None`
otherwise. -/
def firstMedRef (env : TestEnv) : Option String :=
  if env.meds.status == 200 then env.meds.data.head?.map (fun m => m.id) else none

/-- Embedding of the module-level flow of `test_supabase_access.py`:
TESTS 1-3 are reads reported in order; TEST 4 posts the payload (built
from `first_med_id`) and reports the created record's id on status 200 or
201, or is skipped when `first_med_id` is `None`. -/
def runAccessTest (log_date : String) (env : TestEnv) : List Event :=
  let e1 := readEvent "medications" env.meds.status env.meds.data.length env.meds.text
  let e2 := readEvent "inventory" env.inv.status env.inv.data.length env.inv.text
  let e3 := readEvent "dispensing_logs" env.logs.status env.logs.data.length env.logs.text
  let e4 : List Event :=
    match firstMedRef env with
    | some mid =>
      [Event.insertIssued (dispensingPayload log_date mid),
       if env.insert.status == 200 || env.insert.status == 201 then
         Event.insertOk (env.insert.data.head?.map (fun r => r.id))
       else Event.insertFail env.insert.text]
    | none => [Event.skippedWrite]
  e1 :: e2 :: e3 :: e4

/-! Concrete fixtures used by witnesses and counterexamples. -/

/-- The empty backend. -/
def bEmpty : Backend := { users := [], profiles := [], nextId := 0 }

/-- A pre-existing identity carrying the admin email. -/
def wUser : AuthUser := { id := 7, email := ADMIN_EMAIL }

/-- A backend where the admin identity already exists together with its
not-yet-privileged trigger profile. -/
def wBackend : Backend :=
  { users := [wUser],
    profiles := [triggerProfile 7 ADMIN_EMAIL ADMIN_FIRST_NAME ADMIN_LAST_NAME],
    nextId := 8 }

/-- The profile row produced by applying the admin update (at time 3) to
the trigger profile of `wBackend`. -/
def wProfile : Profile :=
  adminProfileUpdate 7 3 (triggerProfile 7 ADMIN_EMAIL ADMIN_FIRST_NAME ADMIN_LAST_NAME)

/-- A configuration with nothing set. -/
def cfgNone : Config := { url := none, serviceKey := none, anonKey := none }

/-- A backend where the admin identity exists but has no profile row. -/
def noProfB : Backend :=
  { users := [{ id := 0, email := ADMIN_EMAIL }], profiles := [], nextId := 1 }

/-- A sample medication row. -/
def medA : Medication := { id := "med-1", name := "Aspirin", strength := some "100mg" }

/-- Responses: one medication, successful insert (201) returning one row. -/
def envOneMed : TestEnv :=
  { meds := { status := 200, data := [medA], text := "" },
    inv := { status := 200, data := [], text := "" },
    logs := { status := 200, data := [], text := "" },
    insert := { status := 201, data := [{ id := "log-1" }], text := "" } }

/-- Responses: medications read succeeds with an empty collection. -/
def envNoMeds : TestEnv :=
  { meds := { status := 200, data := [], text := "" },
    inv := { status := 200, data := [], text := "" },
    logs := { status := 200, data := [], text := "" },
    insert := { status := 201, data := [{ id := "log-1" }], text := "" } }

/-- Responses: the medications read fails with 401; the other three
responses coincide with `envOneMed`. -/
def envMedsFail : TestEnv :=
  { meds := { status := 401, data := [], text := "permission denied" },
    inv := { status := 200, data := [], text := "" },
    logs := { status := 200, data := [], text := "" },
    insert := { status := 201, data := [{ id := "log-1" }], text := "" } }

/-! Helper lemmas shared by the claim theorems. -/

theorem updateProfilesById_users (b : Backend) (uid now : Nat) :
    (updateProfilesById b uid now).users = b.users := rfl

theorem updateProfilesById_nextId (b : Backend) (uid now : Nat) :
    (updateProfilesById b uid now).nextId = b.nextId := rfl

theorem updateProfilesById_profile_spec (b : Backend) (uid now : Nat) :
    ∀ p ∈ (updateProfilesById b uid now).profiles,
      (p.id = uid → p.role = "admin" ∧ p.is_approved = true ∧
        p.approved_by = some uid ∧ p.approved_at = some now) ∧
      (p.id ≠ uid → p ∈ b.profiles) := by
  intro p hp
  simp only [updateProfilesById, List.mem_map] at hp
  obtain ⟨q, hq, rfl⟩ := hp
  by_cases h : q.id = uid
  · constructor
    · intro _
      simp [h, adminProfileUpdate]
    · intro hne
      exact absurd (by simp [h, adminProfileUpdate]) hne
  · constructor
    · intro hid
      simp [h] at hid
    · intro _
      simpa [h] using hq

/-- C3: when the identity-creation call succeeds and returns a user, the
workflow updates the profile record whose id equals the new account's
identifier, setting role=admin, is_approved=true, approved_by to that same
identifier (self) and approved_at to now, leaves every other profile row
untouched, and reports success. -/
theorem create_success_updates_self_profile (u : AuthUser) (b' b : Backend) (now : Nat) :
    create_admin_user (.created u b') b now = (true, updateProfilesById b' u.id now) ∧
    (updateProfilesById b' u.id now).users = b'.users ∧
    (∀ p ∈ (updateProfilesById b' u.id now).profiles,
      (p.id = u.id → p.role = "admin" ∧ p.is_approved = true ∧
        p.approved_by = some u.id ∧ p.approved_at = some now) ∧
      (p.id ≠ u.id → p ∈ b'.profiles)) :=
  ⟨rfl, rfl, updateProfilesById_profile_spec b' u.id now⟩

theorem create_success_updates_self_profile_witness :
    wProfile.role = "admin" ∧ wProfile.is_approved = true ∧
    wProfile.approved_by = some 7 ∧ wProfile.approved_at = some 3 :=
  ((create_success_updates_self_profile wUser wBackend wBackend 3).2.2
    wProfile (by decide)).1 (by decide)

/-- C4: when the backend URL is absent, or both the service-role and the
public credential are absent, the provisioning tool exits with status 1
before any remote call: the backend state is returned untouched. -/
theorem missing_config_exits_early (cfg : Config) (mo : MigrationOutcome) (dupMsg : String)
    (now : Nat) (b : Backend)
    (h : cfg.url = none ∨ (cfg.serviceKey = none ∧ cfg.anonKey = none)) :
    create_supabase_client cfg = .exited 1 ∧ main_full cfg mo dupMsg now b = (1, b) := by
  have hc : create_supabase_client cfg = .exited 1 := by
    rcases h with h | ⟨h1, h2⟩
    · simp [create_supabase_client, h, truthy]
    · by_cases hu : truthy cfg.url
      · simp [create_supabase_client, hu, pyOr, h1, h2, truthy]
      · simp [create_supabase_client, hu]
  exact ⟨hc, by simp [main_full, hc]⟩

theorem missing_config_exits_early_witness :
    (cfgNone.url = none ∨ (cfgNone.serviceKey = none ∧ cfgNone.anonKey = none)) ∧
    main_full cfgNone .ok "x" 0 bEmpty = (1, bEmpty) :=
  ⟨Or.inl rfl, (missing_config_exits_early cfgNone .ok "x" 0 bEmpty (Or.inl rfl)).2⟩

/-- C5: a missing migration file makes `run_migration_sql` report failure,
yet the workflow's outcome — exit code and final state — is the same as
with a successful migration: in particular, when no admin identity exists
yet, the run with a failed migration still creates the admin account. -/
theorem migration_failure_is_soft (mo : MigrationOutcome) (dupMsg : String) (now : Nat)
    (b : Backend) :
    run_migration_sql .fileMissing = false ∧
    runProvisioning .fileMissing dupMsg now b = runProvisioning mo dupMsg now b ∧
    (b.users.any (fun u => u.email == ADMIN_EMAIL) = false →
      ((runProvisioning .fileMissing dupMsg now b).2).users =
        b.users ++ [{ id := b.nextId, email := ADMIN_EMAIL }]) := by
  refine ⟨rfl, rfl, ?_⟩
  intro h
  simp [runProvisioning, main_run, supaCreate, h, create_admin_user, apply_ite Prod.snd,
    updateProfilesById]

theorem migration_failure_is_soft_witness :
    bEmpty.users.any (fun u => u.email == ADMIN_EMAIL) = false ∧
    ((runProvisioning .fileMissing "already_exists" 0 bEmpty).2).users =
      bEmpty.users ++ [{ id := bEmpty.nextId, email := ADMIN_EMAIL }] :=
  ⟨rfl, (migration_failure_is_soft .ok "already_exists" 0 bEmpty).2.2 rfl⟩

/-- C9: on a backend where an account with the admin email exists, a
creation failure makes the workflow reconcile (report success) exactly when
the message contains the substring already_exists or its lowercased form
contains duplicate; already_exists is matched case-sensitively while
duplicate is matched case-insensitively, as the sample messages show. -/
theorem duplicate_classification_behavior (msg : String) (b : Backend) (now : Nat)
    (ha : ∃ u ∈ b.users, u.email = ADMIN_EMAIL) :
    ((create_admin_user (.raised msg) b now).1 = true ↔
      (containsSubstr msg "already_exists" = true ∨
       containsSubstr (toLowerStr msg) "duplicate" = true)) ∧
    isDuplicateError "ALREADY_EXISTS" = false ∧
    isDuplicateError "Email Already_Exists" = false ∧
    isDuplicateError "DUPLICATE key value" = true ∧
    isDuplicateError "already_exists" = true := by
  obtain ⟨u, hu, he⟩ := ha
  have hsome : (b.users.find? (fun v => v.email == ADMIN_EMAIL)).isSome := by
    rw [List.find?_isSome]
    exact ⟨u, hu, by simp [he]⟩
  obtain ⟨a, hfind⟩ := Option.isSome_iff_exists.mp hsome
  have key : (create_admin_user (.raised msg) b now).1 = isDuplicateError msg := by
    by_cases hdup : isDuplicateError msg
    · simp [create_admin_user, hdup, hfind]
    · simp [create_admin_user, hdup]
  refine ⟨?_, by decide, by decide, by decide, by decide⟩
  rw [key, isDuplicateError, Bool.or_eq_true]

theorem duplicate_classification_behavior_witness :
    (create_admin_user (.raised "DUPLICATE key value") wBackend 4).1 = true :=
  ((duplicate_classification_behavior "DUPLICATE key value" wBackend 4
    ⟨wUser, by decide, rfl⟩).1).mpr (Or.inr (by decide))

/-- C10: when creation fails with a duplicate-classified error but no
listed identity carries the admin email, the workflow performs no profile
update (the backend state is returned unchanged), reports failure, and the
tool exits with status 1. -/
theorem duplicate_without_match_reports_failure (mo : MigrationOutcome) (msg : String)
    (b : Backend) (now : Nat)
    (hdup : isDuplicateError msg = true)
    (hnone : ∀ u ∈ b.users, u.email ≠ ADMIN_EMAIL) :
    create_admin_user (.raised msg) b now = (false, b) ∧
    main_run mo (.raised msg) b now = (1, b) := by
  have hfind : b.users.find? (fun u => u.email == ADMIN_EMAIL) = none := by
    rw [List.find?_eq_none]
    intro u hu
    simpa using hnone u hu
  have h1 : create_admin_user (.raised msg) b now = (false, b) := by
    simp [create_admin_user, hdup, hfind]
  exact ⟨h1, by simp [main_run, h1]⟩

theorem duplicate_without_match_reports_failure_witness :
    isDuplicateError "duplicate" = true ∧
    main_run .ok (.raised "duplicate") bEmpty 0 = (1, bEmpty) :=
  ⟨by decide, (duplicate_without_match_reports_failure .ok "duplicate" bEmpty 0 (by decide)
    (by decide)).2⟩

/-- C2: on a duplicate-classified creation failure, given that an account
with the admin email exists, the workflow locates it by exact email match
among the listed identities and applies the admin profile update to that
account's identifier, leaving the identity store (no second account) and
all other profile rows unchanged, and reports success. -/
theorem reconciliation_updates_existing (msg : String) (b : Backend) (now : Nat)
    (hdup : isDuplicateError msg = true)
    (hex : ∃ u ∈ b.users, u.email = ADMIN_EMAIL) :
    ∃ a, b.users.find? (fun u => u.email == ADMIN_EMAIL) = some a ∧
      a ∈ b.users ∧ a.email = ADMIN_EMAIL ∧
      create_admin_user (.raised msg) b now = (true, updateProfilesById b a.id now) ∧
      (updateProfilesById b a.id now).users = b.users ∧
      (∀ p ∈ (updateProfilesById b a.id now).profiles,
        (p.id = a.id → p.role = "admin" ∧ p.is_approved = true ∧
          p.approved_by = some a.id ∧ p.approved_at = some now) ∧
        (p.id ≠ a.id → p ∈ b.profiles)) := by
  obtain ⟨u, hu, he⟩ := hex
  have hsome : (b.users.find? (fun v => v.email == ADMIN_EMAIL)).isSome := by
    rw [List.find?_isSome]
    exact ⟨u, hu, by simp [he]⟩
  obtain ⟨a, hfind⟩ := Option.isSome_iff_exists.mp hsome
  refine ⟨a, hfind, List.mem_of_find?_eq_some hfind, ?_, ?_, rfl,
    updateProfilesById_profile_spec b a.id now⟩
  · have := List.find?_some hfind
    simpa using this
  · simp [create_admin_user, hdup, hfind]

theorem reconciliation_updates_existing_witness :
    create_admin_user (.raised "already_exists") wBackend 3 =
      (true, updateProfilesById wBackend wUser.id 3) := by
  obtain ⟨a, hfind, _, _, hrun, _⟩ :=
    reconciliation_updates_existing "already_exists" wBackend 3 (by decide)
      ⟨wUser, by decide, rfl⟩
  have h2 : wBackend.users.find? (fun u => u.email == ADMIN_EMAIL) = some wUser := by decide
  have ha : a = wUser := by
    rw [hfind] at h2
    exact Option.some.inj h2
  rw [ha] at hrun
  exact hrun

/-- C6 counterexample: on a backend whose admin-email profile row has
role=user and is_approved=false, `verify_setup` nevertheless reports
success — the verification step does not confirm that the role and
approval fields reflect the intended state. -/
theorem verify_fields_not_checked_cex :
    ¬(verify_setup wBackend = true →
      ∀ p ∈ wBackend.profiles, p.email = ADMIN_EMAIL →
        p.role = "admin" ∧ p.is_approved = true) := by
  decide

/-- C6 (amended): the verification step re-reads the profile table
filtered by the admin email and succeeds exactly when a row exists; the
row's role and approval fields are printed but not compared, so a field
mismatch is never detected (and in particular is non-fatal); verification
never modifies the state reached after the create step (no rollback); and
when the create step succeeded but no admin-email row exists, the tool
exits with status 1. -/
theorem verify_existence_only (b : Backend) (mo : MigrationOutcome) (res : CreateResult)
    (now : Nat) :
    (verify_setup b = true ↔ ∃ p ∈ b.profiles, p.email = ADMIN_EMAIL) ∧
    (main_run mo res b now).2 = (create_admin_user res b now).2 ∧
    ((create_admin_user res b now).1 = true →
      verify_setup (create_admin_user res b now).2 = false →
      main_run mo res b now = (1, (create_admin_user res b now).2)) := by
  obtain ⟨ok, b1, h⟩ : ∃ ok b1, create_admin_user res b now = (ok, b1) := ⟨_, _, rfl⟩
  refine ⟨?_, ?_, ?_⟩
  · simp [verify_setup, List.isEmpty_iff, List.filter_eq_nil_iff]
  · rw [h]
    simp only [main_run, h]
    cases ok
    · simp
    · simp [apply_ite Prod.snd]
  · rw [h]
    intro h1 h2
    simp only at h1 h2
    subst h1
    simp [main_run, h, h2]

theorem verify_existence_only_witness :
    main_run .ok (.raised "duplicate") noProfB 0 =
      (1, (create_admin_user (.raised "duplicate") noProfB 0).2) :=
  (verify_existence_only noProfB .ok (.raised "duplicate") 0).2.2 (by decide) (by decide)

/-- C7: when the medications read returns 200 with at least one record,
the write check issues a payload whose medication_id is the first fetched
medication's id and, on HTTP 200 or 201, reports the created record's id;
when the medications read returns 200 with an empty collection, the tool
reports zero fetched records and skips the write check entirely. -/
theorem write_check_gating (d : String) (env : TestEnv) :
    (∀ m rest, env.meds.status = 200 → env.meds.data = m :: rest →
      (dispensingPayload d m.id).medication_id = m.id ∧
      (runAccessTest d env)[3]? = some (Event.insertIssued (dispensingPayload d m.id)) ∧
      (∀ r rs, (env.insert.status = 200 ∨ env.insert.status = 201) →
        env.insert.data = r :: rs →
        (runAccessTest d env)[4]? = some (Event.insertOk (some r.id)))) ∧
    (env.meds.status = 200 → env.meds.data = [] →
      (runAccessTest d env)[0]? = some (Event.readOk "medications" 0) ∧
      (runAccessTest d env).drop 3 = [Event.skippedWrite]) := by
  constructor
  · intro m rest h200 hdata
    have href : firstMedRef env = some m.id := by
      simp [firstMedRef, h200, hdata]
    refine ⟨rfl, ?_, ?_⟩
    · simp [runAccessTest, href]
    · intro r rs hst hins
      have hst' : (env.insert.status == 200 || env.insert.status == 201) = true := by
        rcases hst with h | h <;> simp [h]
      simp [runAccessTest, href, hst', hins]
  · intro h200 hempty
    have href : firstMedRef env = none := by
      simp [firstMedRef, h200, hempty]
    constructor
    · simp [runAccessTest, readEvent, h200, hempty]
    · simp [runAccessTest, href]

theorem write_check_gating_witness :
    ((runAccessTest "2025-01-01" envOneMed)[3]? =
      some (Event.insertIssued (dispensingPayload "2025-01-01" medA.id)) ∧
     (runAccessTest "2025-01-01" envOneMed)[4]? =
      some (Event.insertOk (some "log-1"))) ∧
    (runAccessTest "2025-01-01" envNoMeds).drop 3 = [Event.skippedWrite] :=
  ⟨⟨((write_check_gating "2025-01-01" envOneMed).1 medA [] rfl rfl).2.1,
    ((write_check_gating "2025-01-01" envOneMed).1 medA [] rfl rfl).2.2
      { id := "log-1" } [] (Or.inr rfl) rfl⟩,
   ((write_check_gating "2025-01-01" envNoMeds).2 rfl rfl).2⟩

/-- C8: the four checks are reported in a fixed order (medications,
inventory, dispensing-logs read, then the write phase); the outcome of
each read check depends only on its own response, so a failure of one
check never aborts the others; and the write phase is replaced by a skip
notice exactly when the first check yielded no reference row. -/
theorem checks_ordered_and_independent (d : String) (env : TestEnv) :
    (runAccessTest d env)[0]? =
      some (readEvent "medications" env.meds.status env.meds.data.length env.meds.text) ∧
    (runAccessTest d env)[1]? =
      some (readEvent "inventory" env.inv.status env.inv.data.length env.inv.text) ∧
    (runAccessTest d env)[2]? =
      some (readEvent "dispensing_logs" env.logs.status env.logs.data.length env.logs.text) ∧
    (∀ env' : TestEnv, env'.inv = env.inv →
      (runAccessTest d env')[1]? = (runAccessTest d env)[1]?) ∧
    (∀ env' : TestEnv, env'.logs = env.logs →
      (runAccessTest d env')[2]? = (runAccessTest d env)[2]?) ∧
    ((runAccessTest d env).drop 3 = [Event.skippedWrite] ↔ firstMedRef env = none) ∧
    (firstMedRef env = none ↔ ¬(env.meds.status = 200 ∧ env.meds.data ≠ [])) := by
  refine ⟨by simp [runAccessTest], by simp [runAccessTest], by simp [runAccessTest],
    ?_, ?_, ?_, ?_⟩
  · intro env' h
    simp [runAccessTest, h]
  · intro env' h
    simp [runAccessTest, h]
  · cases h : firstMedRef env <;> simp [runAccessTest, h]
  · by_cases h200 : env.meds.status = 200
    · cases hdata : env.meds.data <;> simp [firstMedRef, h200, hdata]
    · have : (env.meds.status == 200) = false := by simp [h200]
      simp [firstMedRef, this, h200]

theorem checks_ordered_and_independent_witness :
    (runAccessTest "2025-01-01" envMedsFail)[1]? =
      (runAccessTest "2025-01-01" envOneMed)[1]? ∧
    (runAccessTest "2025-01-01" envMedsFail).drop 3 = [Event.skippedWrite] :=
  ⟨(checks_ordered_and_independent "2025-01-01" envOneMed).2.2.2.1 envMedsFail rfl,
   ((checks_ordered_and_independent "2025-01-01" envMedsFail).2.2.2.2.2.1).mpr (by decide)⟩

/-! Supporting lemmas for the idempotence theorem (C1). -/

theorem map_update_not_hit (l : List Profile) (uid t : Nat) (h : ∀ p ∈ l, p.id ≠ uid) :
    l.map (fun p => if p.id == uid then adminProfileUpdate uid t p else p) = l := by
  induction l with
  | nil => rfl
  | cons hd tl ih =>
    have h1 : hd.id ≠ uid := h hd (by simp)
    have h2 : ∀ p ∈ tl, p.id ≠ uid := fun p hp => h p (by simp [hp])
    simp only [List.map_cons]
    rw [if_neg (by simp [h1]), ih h2]

theorem verify_setup_iff (b : Backend) :
    verify_setup b = true ↔ ∃ p ∈ b.profiles, p.email = ADMIN_EMAIL := by
  simp [verify_setup, List.isEmpty_iff, List.filter_eq_nil_iff]

theorem run_create (mo : MigrationOutcome) (dupMsg : String) (t : Nat) (b : Backend)
    (hany : b.users.any (fun u => u.email == ADMIN_EMAIL) = false)
    (hid : ∀ p ∈ b.profiles, p.id ≠ b.nextId) :
    runProvisioning mo dupMsg t b =
      (0, { users := b.users ++ [{ id := b.nextId, email := ADMIN_EMAIL }],
            profiles := b.profiles ++ [adminProfileFor b.nextId t],
            nextId := b.nextId + 1 }) := by
  have hprofiles :
      (b.profiles ++ [triggerProfile b.nextId ADMIN_EMAIL ADMIN_FIRST_NAME ADMIN_LAST_NAME]).map
        (fun p => if p.id == b.nextId then adminProfileUpdate b.nextId t p else p) =
      b.profiles ++ [adminProfileFor b.nextId t] := by
    rw [List.map_append, map_update_not_hit b.profiles b.nextId t hid]
    simp [triggerProfile, adminProfileUpdate, adminProfileFor]
  have hver : verify_setup
      { users := b.users ++ [{ id := b.nextId, email := ADMIN_EMAIL }],
        profiles := b.profiles ++ [adminProfileFor b.nextId t],
        nextId := b.nextId + 1 } = true := by
    rw [verify_setup_iff]
    exact ⟨adminProfileFor b.nextId t,
      List.mem_append_right _ (by simp), rfl⟩
  simp only [runProvisioning, main_run, supaCreate, hany, Bool.false_eq_true, if_false,
    create_admin_user, updateProfilesById, hprofiles, run_migration_sql]
  simp [hver]

theorem run_reconcile (mo : MigrationOutcome) (dupMsg : String) (t : Nat) (b : Backend)
    (a : AuthUser)
    (hdup : isDuplicateError dupMsg = true)
    (hfind : b.users.find? (fun u => u.email == ADMIN_EMAIL) = some a)
    (hprof : ∃ p ∈ b.profiles, p.email = ADMIN_EMAIL) :
    runProvisioning mo dupMsg t b = (0, updateProfilesById b a.id t) := by
  have hpa := List.find?_some hfind
  have hany : b.users.any (fun u => u.email == ADMIN_EMAIL) = true := by
    rw [List.any_eq_true]
    exact ⟨a, List.mem_of_find?_eq_some hfind, hpa⟩
  have hver : verify_setup (updateProfilesById b a.id t) = true := by
    rw [verify_setup_iff]
    obtain ⟨p, hp, he⟩ := hprof
    refine ⟨(fun q => if q.id == a.id then adminProfileUpdate a.id t q else q) p,
      List.mem_map_of_mem _ hp, ?_⟩
    by_cases h : p.id = a.id <;> simp [h, adminProfileUpdate, he]
  simp [runProvisioning, main_run, supaCreate, hany, create_admin_user, hdup, hfind, hver]

theorem update_preserves_id (uid t : Nat) (p : Profile) :
    (if p.id == uid then adminProfileUpdate uid t p else p).id = p.id := by
  by_cases h : p.id = uid <;> simp [h, adminProfileUpdate]

theorem update_preserves_email (uid t : Nat) (p : Profile) :
    (if p.id == uid then adminProfileUpdate uid t p else p).email = p.email := by
  by_cases h : p.id = uid <;> simp [h, adminProfileUpdate]

theorem WF_update (b : Backend) (uid t : Nat) (hwf : WF b) :
    WF (updateProfilesById b uid t) := by
  obtain ⟨w1, w2, w3, w4, w5, w6, w7⟩ := hwf
  have hmapid : (updateProfilesById b uid t).profiles.map (fun p => p.id) =
      b.profiles.map (fun p => p.id) := by
    simp only [updateProfilesById]
    rw [List.map_map]
    apply List.map_congr_left
    intro p _
    exact update_preserves_id uid t p
  refine ⟨w1, w2, ?_, ?_, ?_, w6, ?_⟩
  · rw [hmapid]
    exact w3
  · intro u hu
    obtain ⟨p, hp, h1, h2⟩ := w4 u hu
    refine ⟨(fun q => if q.id == uid then adminProfileUpdate uid t q else q) p,
      List.mem_map_of_mem _ hp, ?_, ?_⟩
    · rw [update_preserves_id]
      exact h1
    · rw [update_preserves_email]
      exact h2
  · intro p hp
    simp only [updateProfilesById, List.mem_map] at hp
    obtain ⟨q, hq, rfl⟩ := hp
    obtain ⟨u, hu, h1, h2⟩ := w5 q hq
    refine ⟨u, hu, ?_, ?_⟩
    · rw [update_preserves_id]
      exact h1
    · rw [update_preserves_email]
      exact h2
  · intro p hp
    simp only [updateProfilesById, List.mem_map] at hp
    obtain ⟨q, hq, rfl⟩ := hp
    have hlt := w7 q hq
    rw [update_preserves_id]
    exact hlt

theorem stripTimes_update_of_fields (b : Backend) (uid t : Nat)
    (hall : AllAdminFields b uid) :
    stripTimes (updateProfilesById b uid t) = stripTimes b := by
  simp only [stripTimes, updateProfilesById]
  rw [List.map_map]
  refine congrArg (fun l => Backend.mk b.users l b.nextId) ?_
  apply List.map_congr_left
  intro p hp
  by_cases h : p.id = uid
  · obtain ⟨h1, h2, h3⟩ := hall p hp h
    simp [h, adminProfileUpdate, h1, h2, h3]
  · simp [h]

theorem nodup_filter_email_single (l : List AuthUser) (a : AuthUser)
    (hnd : (l.map (fun u => u.email)).Nodup)
    (hfind : l.find? (fun u => u.email == ADMIN_EMAIL) = some a) :
    l.filter (fun u => u.email == ADMIN_EMAIL) = [a] := by
  induction l with
  | nil => cases hfind
  | cons hd tl ih =>
    rw [List.map_cons, List.nodup_cons] at hnd
    by_cases h : hd.email = ADMIN_EMAIL
    · have hfhd : (fun u : AuthUser => u.email == ADMIN_EMAIL) hd = true := by simp [h]
      have hstep : List.find? (fun u : AuthUser => u.email == ADMIN_EMAIL) (hd :: tl) =
          some hd := List.find?_cons_of_pos _ hfhd
      rw [hstep] at hfind
      have ha : hd = a := Option.some.inj hfind
      have htl : tl.filter (fun u => u.email == ADMIN_EMAIL) = [] := by
        rw [List.filter_eq_nil_iff]
        intro u hu hpu
        apply hnd.1
        have hue : u.email = ADMIN_EMAIL := by simpa using hpu
        have hmem : u.email ∈ tl.map (fun v => v.email) :=
          List.mem_map_of_mem _ hu
        rwa [hue, ← h] at hmem
      have hfc : List.filter (fun u : AuthUser => u.email == ADMIN_EMAIL) (hd :: tl) =
          hd :: tl.filter (fun u => u.email == ADMIN_EMAIL) :=
        List.filter_cons_of_pos hfhd
      rw [hfc, htl, ha]
    · have hfhd : ¬((fun u : AuthUser => u.email == ADMIN_EMAIL) hd = true) := by simp [h]
      have hstep : List.find? (fun u : AuthUser => u.email == ADMIN_EMAIL) (hd :: tl) =
          List.find? (fun u => u.email == ADMIN_EMAIL) tl := List.find?_cons_of_neg _ hfhd
      rw [hstep] at hfind
      have hfc : List.filter (fun u : AuthUser => u.email == ADMIN_EMAIL) (hd :: tl) =
          tl.filter (fun u => u.email == ADMIN_EMAIL) :=
        List.filter_cons_of_neg hfhd
      rw [hfc]
      exact ih hnd.2 hfind

theorem WF_create (b : Backend) (t : Nat) (hwf : WF b)
    (hany : b.users.any (fun u => u.email == ADMIN_EMAIL) = false) :
    WF { users := b.users ++ [{ id := b.nextId, email := ADMIN_EMAIL }],
         profiles := b.profiles ++ [adminProfileFor b.nextId t],
         nextId := b.nextId + 1 } := by
  obtain ⟨w1, w2, w3, w4, w5, w6, w7⟩ := hwf
  have hmail : ∀ u ∈ b.users, ¬(u.email = ADMIN_EMAIL) := by
    intro u hu
    have := List.any_eq_false.mp hany u hu
    simpa using this
  refine ⟨?_, ?_, ?_, ?_, ?_, ?_, ?_⟩
  · rw [List.map_append, List.nodup_append]
    refine ⟨w1, by simp, ?_⟩
    intro x hx hx2
    simp only [List.mem_map] at hx
    obtain ⟨u, hu, rfl⟩ := hx
    simp only [List.map_cons, List.map_nil, List.mem_singleton] at hx2
    have := w6 u hu
    omega
  · rw [List.map_append, List.nodup_append]
    refine ⟨w2, by simp, ?_⟩
    intro x hx hx2
    simp only [List.mem_map] at hx
    obtain ⟨u, hu, rfl⟩ := hx
    simp only [List.map_cons, List.map_nil, List.mem_singleton] at hx2
    exact hmail u hu hx2
  · rw [List.map_append, List.nodup_append]
    refine ⟨w3, by simp, ?_⟩
    intro x hx hx2
    simp only [List.mem_map] at hx
    obtain ⟨p, hp, rfl⟩ := hx
    simp only [List.map_cons, List.map_nil, List.mem_singleton, adminProfileFor] at hx2
    have := w7 p hp
    omega
  · intro u hu
    rcases List.mem_append.mp hu with h | h
    · obtain ⟨p, hp, h1, h2⟩ := w4 u h
      exact ⟨p, List.mem_append_left _ hp, h1, h2⟩
    · simp only [List.mem_singleton] at h
      subst h
      exact ⟨adminProfileFor b.nextId t, List.mem_append_right _ (by simp), rfl, rfl⟩
  · intro p hp
    rcases List.mem_append.mp hp with h | h
    · obtain ⟨u, hu, h1, h2⟩ := w5 p h
      exact ⟨u, List.mem_append_left _ hu, h1, h2⟩
    · simp only [List.mem_singleton] at h
      subst h
      exact ⟨{ id := b.nextId, email := ADMIN_EMAIL },
        List.mem_append_right _ (by simp), rfl, rfl⟩
  · intro u hu
    rcases List.mem_append.mp hu with h | h
    · have := w6 u h
      show u.id < b.nextId + 1
      omega
    · simp only [List.mem_singleton] at h
      subst h
      show b.nextId < b.nextId + 1
      omega
  · intro p hp
    rcases List.mem_append.mp hp with h | h
    · have := w7 p h
      show p.id < b.nextId + 1
      omega
    · simp only [List.mem_singleton] at h
      subst h
      show b.nextId < b.nextId + 1
      omega

theorem established_step (mo : MigrationOutcome) (dupMsg : String) (t : Nat)
    (b : Backend) (a : AuthUser)
    (hdup : isDuplicateError dupMsg = true) (hE : Established b a) :
    runProvisioning mo dupMsg t b = (0, updateProfilesById b a.id t) ∧
    Established (updateProfilesById b a.id t) a ∧
    stripTimes (updateProfilesById b a.id t) = stripTimes b := by
  obtain ⟨hwf, hae, hfind, hall⟩ := hE
  have hprof : ∃ p ∈ b.profiles, p.email = ADMIN_EMAIL := by
    obtain ⟨p, hp, h1, h2⟩ := hwf.2.2.2.1 a (List.mem_of_find?_eq_some hfind)
    exact ⟨p, hp, by rw [h2, hae]⟩
  refine ⟨run_reconcile mo dupMsg t b a hdup hfind hprof,
    ⟨WF_update b a.id t hwf, hae, hfind, ?_⟩,
    stripTimes_update_of_fields b a.id t hall⟩
  intro p hp hid
  have hspec := updateProfilesById_profile_spec b a.id t p hp
  exact ⟨(hspec.1 hid).1, (hspec.1 hid).2.1, (hspec.1 hid).2.2.1⟩

theorem run_establishes (mo : MigrationOutcome) (dupMsg : String) (t : Nat) (b : Backend)
    (hdup : isDuplicateError dupMsg = true) (hwf : WF b) :
    ∃ a, (runProvisioning mo dupMsg t b).1 = 0 ∧
      Established ((runProvisioning mo dupMsg t b).2) a := by
  by_cases hany : b.users.any (fun u => u.email == ADMIN_EMAIL) = true
  · obtain ⟨a0, hmem0, hpa0⟩ := List.any_eq_true.mp hany
    have hsome : (b.users.find? (fun u => u.email == ADMIN_EMAIL)).isSome :=
      List.find?_isSome.mpr ⟨a0, hmem0, hpa0⟩
    obtain ⟨a, hfind⟩ := Option.isSome_iff_exists.mp hsome
    have hpa := List.find?_some hfind
    have hae : a.email = ADMIN_EMAIL := by simpa using hpa
    have hprof : ∃ p ∈ b.profiles, p.email = ADMIN_EMAIL := by
      obtain ⟨p, hp, h1, h2⟩ := hwf.2.2.2.1 a (List.mem_of_find?_eq_some hfind)
      exact ⟨p, hp, by rw [h2, hae]⟩
    have hrun := run_reconcile mo dupMsg t b a hdup hfind hprof
    refine ⟨a, by rw [hrun], ?_⟩
    rw [hrun]
    exact ⟨WF_update b a.id t hwf, hae, hfind, fun p hp hid =>
      ⟨((updateProfilesById_profile_spec b a.id t p hp).1 hid).1,
       ((updateProfilesById_profile_spec b a.id t p hp).1 hid).2.1,
       ((updateProfilesById_profile_spec b a.id t p hp).1 hid).2.2.1⟩⟩
  · have hany' : b.users.any (fun u => u.email == ADMIN_EMAIL) = false := by
      simpa using hany
    have hid : ∀ p ∈ b.profiles, p.id ≠ b.nextId :=
      fun p hp => Nat.ne_of_lt (hwf.2.2.2.2.2.2 p hp)
    have hrun := run_create mo dupMsg t b hany' hid
    refine ⟨{ id := b.nextId, email := ADMIN_EMAIL }, by rw [hrun], ?_⟩
    rw [hrun]
    refine ⟨WF_create b t hwf hany', rfl, ?_, ?_⟩
    · show (b.users ++ [({ id := b.nextId, email := ADMIN_EMAIL } : AuthUser)]).find?
        (fun u => u.email == ADMIN_EMAIL) =
        some ({ id := b.nextId, email := ADMIN_EMAIL } : AuthUser)
      rw [List.find?_append]
      have hnone : b.users.find? (fun u => u.email == ADMIN_EMAIL) = none := by
        rw [List.find?_eq_none]
        intro u hu
        exact List.any_eq_false.mp hany' u hu
      rw [hnone]
      simp
    · intro p hp hid2
      rcases List.mem_append.mp hp with h | h
      · exact absurd hid2 (Nat.ne_of_lt (hwf.2.2.2.2.2.2 p h))
      · simp only [List.mem_singleton] at h
        subst h
        exact ⟨rfl, rfl, rfl⟩

theorem established_email_fields (b : Backend) (a : AuthUser) (hE : Established b a) :
    ∀ p ∈ b.profiles, p.email = ADMIN_EMAIL → p.role = "admin" ∧ p.is_approved = true := by
  obtain ⟨hwf, hae, hfind, hall⟩ := hE
  intro p hp he
  obtain ⟨u, hu, h1, h2⟩ := hwf.2.2.2.2.1 p hp
  have hua : u = a :=
    List.inj_on_of_nodup_map hwf.2.1 hu (List.mem_of_find?_eq_some hfind)
      (by rw [h2, he, hae])
  have hpid : p.id = a.id := by rw [← h1, hua]
  exact ⟨(hall p hp hpid).1, (hall p hp hpid).2.1⟩

theorem established_admin_accounts (b : Backend) (a : AuthUser) (hE : Established b a) :
    adminAccounts b = [a] :=
  nodup_filter_email_single b.users a hE.1.2.1 hE.2.2.1

/-- C1: from any well-formed backend state, running the provisioning
workflow twice leaves exactly one account for the admin email, whose
profile carries role=admin and approval=true after both runs; and for
every N ≥ 1, the state after N runs equals the state after one run once
the per-run approval timestamps are erased. -/
theorem provisioning_idempotent (mo : MigrationOutcome) (dupMsg : String) (ts : Nat → Nat)
    (b : Backend) (hwf : WF b) (hdup : isDuplicateError dupMsg = true) :
    (adminAccounts (runProvisioningN mo dupMsg ts 1 b)).length = 1 ∧
    (adminAccounts (runProvisioningN mo dupMsg ts 2 b)).length = 1 ∧
    (∀ p ∈ (runProvisioningN mo dupMsg ts 1 b).profiles,
      p.email = ADMIN_EMAIL → p.role = "admin" ∧ p.is_approved = true) ∧
    (∀ p ∈ (runProvisioningN mo dupMsg ts 2 b).profiles,
      p.email = ADMIN_EMAIL → p.role = "admin" ∧ p.is_approved = true) ∧
    (∀ N, 1 ≤ N →
      stripTimes (runProvisioningN mo dupMsg ts N b) =
      stripTimes (runProvisioningN mo dupMsg ts 1 b)) := by
  obtain ⟨a, hc1, hE1⟩ := run_establishes mo dupMsg (ts 0) b hdup hwf
  have inv : ∀ N, 1 ≤ N → Established (runProvisioningN mo dupMsg ts N b) a ∧
      stripTimes (runProvisioningN mo dupMsg ts N b) =
      stripTimes (runProvisioningN mo dupMsg ts 1 b) := by
    intro N
    induction N with
    | zero => intro h; exact absurd h (by omega)
    | succ n ih =>
      intro _
      by_cases hn : 1 ≤ n
      · obtain ⟨hEn, hsn⟩ := ih hn
        have hstep := established_step mo dupMsg (ts n)
          (runProvisioningN mo dupMsg ts n b) a hdup hEn
        constructor
        · show Established
            ((runProvisioning mo dupMsg (ts n) (runProvisioningN mo dupMsg ts n b)).2) a
          rw [hstep.1]
          exact hstep.2.1
        · show stripTimes
            ((runProvisioning mo dupMsg (ts n) (runProvisioningN mo dupMsg ts n b)).2) =
            stripTimes (runProvisioningN mo dupMsg ts 1 b)
          rw [hstep.1]
          show stripTimes
            (updateProfilesById (runProvisioningN mo dupMsg ts n b) a.id (ts n)) =
            stripTimes (runProvisioningN mo dupMsg ts 1 b)
          rw [hstep.2.2, hsn]
      · have hn0 : n = 0 := by omega
        subst hn0
        exact ⟨hE1, rfl⟩
  have hE1' := (inv 1 (by omega)).1
  have hE2 := (inv 2 (by omega)).1
  refine ⟨?_, ?_, established_email_fields _ a hE1', established_email_fields _ a hE2,
    fun N hN => (inv N hN).2⟩
  · rw [established_admin_accounts _ a hE1']
    rfl
  · rw [established_admin_accounts _ a hE2]
    rfl

theorem provisioning_idempotent_witness :
    WF bEmpty ∧ isDuplicateError "already_exists" = true ∧
    (adminAccounts (runProvisioningN .ok "already_exists" (fun n => n) 2 bEmpty)).length = 1 :=
  ⟨by decide, by decide,
   (provisioning_idempotent .ok "already_exists" (fun n => n) bEmpty
     (by decide) (by decide)).2.1⟩

end MediTrack
